import Mathlib

/-!
Verification of the layered credential-and-target resolution code of the
RPI-Qiskit-Sandbox repository (`initializing_qiskit.py`, `main.py`).

The Python code is shallowly embedded: the remote calls
(`QiskitRuntimeService(...)`, `service.backend(...)`,
`NoiseModel.from_backend(...)`) become injected capability functions
returning `Except String Nat`, optional string parameters become
`Option String` (Python truthiness: `None` and `""` are falsy), and the
observable behaviour of each function (remote calls made, log records
emitted, value returned, exception raised) is collected in explicit
trace/result values.
-/

/-- Python truthiness of an optional string: `None` and `""` are falsy. -/
def truthy : Option String → Bool
  | none => false
  | some s => !s.isEmpty

/-- Capability standing for the `QiskitRuntimeService(channel="ibm_quantum",
instance=…, token=…)` constructor: takes the instance and the token, returns a
service handle or raises (an error message). -/
abbrev Connect := String → String → Except String Nat

/-- Whether a connect capability call returned successfully. -/
def connOk : Except String Nat → Bool
  | .ok _ => true
  | .error _ => false

/-! ### Token masking at each log site (`initializing_qiskit.py`) -/

/-- Token rendering in `_console_parser`'s debug log (line 25):
`args.token[:10] + '...' if args.token else None`. -/
def consoleTokenLog (token : Option String) : String :=
  if truthy token then (token.getD "").take 10 ++ "..." else "None"

/-- Token rendering in `_environment_parser`'s debug log (line 47):
`env_token[:10] + '...' if env_token else None`. -/
def envTokenLog (token : Option String) : String :=
  if truthy token then (token.getD "").take 10 ++ "..." else "None"

/-- Token rendering of the `CLI token` field in the final debug log of
`_load_qiskit_runtime_fallback` (line 104). -/
def fallbackCliTokenLog (token : Option String) : String :=
  if truthy token then (token.getD "").take 10 ++ "..." else "None"

/-- Token rendering of the `ENV token` field in the final debug log of
`_load_qiskit_runtime_fallback` (line 105). -/
def fallbackEnvTokenLog (token : Option String) : String :=
  if truthy token then (token.getD "").take 10 ++ "..." else "None"

/-- Token rendering in `_load_qiskit_runtime`'s info log (line 121):
`f"... token: {token[:8]}..."` (the token is known truthy at this site). -/
def runtimeTokenLog (token : String) : String :=
  token.take 8 ++ "..."

/-! ### The fallback resolver (`_load_qiskit_runtime_fallback`) -/

/-- Message of the `RuntimeError` raised when every attempt failed. -/
def allFailMsg : String := "All attempts to authenticate with IBM Quantum failed."

/-- The `alt_attempts` list built at lines 82-88: `(label, instance, token)`
triples, each included only when both of its values are truthy. -/
def altAttempts (inst tok envInst envTok : Option String) :
    List (String × String × String) :=
  (if truthy inst && truthy envTok then
    [("[2] CLI instance + ENV token", inst.getD "", envTok.getD "")] else []) ++
  (if truthy envInst && truthy tok then
    [("[3] ENV instance + CLI token", envInst.getD "", tok.getD "")] else []) ++
  (if truthy envInst && truthy envTok then
    [("[4] ENV instance + ENV token", envInst.getD "", envTok.getD "")] else [])

/-- The full candidate list in rank order: the inline `[1]` attempt (guarded by
`if instance and token:` at line 69) followed by `alt_attempts`. -/
def fallbackCandidates (inst tok envInst envTok : Option String) :
    List (String × String × String) :=
  (if truthy inst && truthy tok then
    [("[1] CLI instance + CLI token", inst.getD "", tok.getD "")] else []) ++
  altAttempts inst tok envInst envTok

/-- Observable behaviour of one run of `_load_qiskit_runtime_fallback`:
the `(instance, token)` pairs passed to the service constructor in order, the
`(label, error)` pairs logged for failed attempts in order, the success log
label if any, the returned service handle if any, the raised `RuntimeError`
message if any, and the `(instance, token)` variable values rendered as
`CLI instance` / `CLI token` in the final debug log (line 104) when reached. -/
structure FallbackTrace where
  connectCalls : List (String × String)
  failures : List (String × String)
  successLog : Option String
  returned : Option Nat
  raisedMsg : Option String
  finalDebugCLI : Option (Option String × Option String)
deriving DecidableEq

/-- The `for (label, instance, token) in alt_attempts:` loop (lines 91-106).
The second argument carries the current bindings of the Python variables
`instance` and `token`, which the loop header rebinds at each iteration and
which the final debug log at line 104 reads after the loop. -/
def runAlts (connect : Connect) :
    List (String × String × String) → Option String × Option String →
    List (String × String) → List (String × String) → FallbackTrace
  | [], b, calls, fails =>
    { connectCalls := calls, failures := fails, successLog := none,
      returned := none, raisedMsg := some allFailMsg, finalDebugCLI := some b }
  | (label, i, t) :: rest, _, calls, fails =>
    match connect i t with
    | .ok s =>
      { connectCalls := calls ++ [(i, t)], failures := fails,
        successLog := some label, returned := some s, raisedMsg := none,
        finalDebugCLI := none }
    | .error e =>
      runAlts connect rest (some i, some t) (calls ++ [(i, t)]) (fails ++ [(label, e)])

/-- Embedding of `_load_qiskit_runtime_fallback` (lines 56-106): inline `[1]`
attempt when `instance and token` are truthy, then the `alt_attempts` loop;
on exhaustion, the final debug log and a `RuntimeError` with `allFailMsg`. -/
def _load_qiskit_runtime_fallback (connect : Connect)
    (inst tok envInst envTok : Option String) : FallbackTrace :=
  if truthy inst && truthy tok then
    match connect (inst.getD "") (tok.getD "") with
    | .ok s =>
      { connectCalls := [(inst.getD "", tok.getD "")], failures := [],
        successLog := some "[1] CLI instance + CLI token", returned := some s,
        raisedMsg := none, finalDebugCLI := none }
    | .error e =>
      runAlts connect (altAttempts inst tok envInst envTok) (inst, tok)
        [(inst.getD "", tok.getD "")] [("[1] CLI instance + CLI token", e)]
  else
    runAlts connect (altAttempts inst tok envInst envTok) (inst, tok) [] []

/-! ### The non-fallback loader (`_load_qiskit_runtime`) and shared errors -/

/-- Python exception classes raised by the embedded functions. `uncaught`
stands for an exception from a capability that no `try` block intercepts. -/
inductive PyError where
  | valueError (msg : String)
  | runtimeError (msg : String)
  | nameError (msg : String)
  | uncaught (msg : String)
deriving DecidableEq

/-- Message of the `ValueError` raised by `_load_qiskit_runtime` when a
required parameter is missing (line 117). -/
def missingMsg : String :=
  "Both instance and token must be provided to load Qiskit runtime service."

/-- Embedding of `_load_qiskit_runtime` (lines 109-128): the list of
`(instance, token)` pairs passed to the service constructor, and the returned
handle or raised error. -/
def _load_qiskit_runtime (connect : Connect) (inst tok : Option String) :
    List (String × String) × Except PyError Nat :=
  if truthy inst && truthy tok then
    match connect (inst.getD "") (tok.getD "") with
    | .ok s => ([(inst.getD "", tok.getD "")], .ok s)
    | .error e =>
      ([(inst.getD "", tok.getD "")],
       .error (.runtimeError ("Failed to load Qiskit runtime service: " ++ e)))
  else ([], .error (.valueError missingMsg))

/-- Embedding of the `load_qiskit_runtime` dispatcher (lines 131-137),
reduced to the connect calls made and the outcome. -/
def load_qiskit_runtime (connect : Connect) (inst tok envInst envTok : Option String)
    (fallback : Bool) : List (String × String) × Except PyError Nat :=
  if fallback then
    let tr := _load_qiskit_runtime_fallback connect inst tok envInst envTok
    (tr.connectCalls,
     match tr.returned with
     | some s => .ok s
     | none => .error (.runtimeError allFailMsg))
  else _load_qiskit_runtime connect inst tok

/-! ### The backend loaders (`_load_qiskit_backend*`) -/

/-- Message of the `ValueError` raised at line 173 of the backend fallback. -/
def noBackendMsg : String :=
  "No backend name provided and no environment variable for backend found."

/-- Rendering of an optional string inside a Python f-string. -/
def optStr : Option String → String
  | some s => s
  | none => "None"

/-- Embedding of `_load_qiskit_backend` (lines 176-185): one
`service.backend(name=backend_name)` call (the name may be `None`); the first
component lists the `name=` arguments passed. -/
def _load_qiskit_backend (getBackend : Nat → Option String → Except String Nat)
    (service : Nat) (backend_name : Option String) :
    List (Option String) × Except PyError Nat :=
  match getBackend service backend_name with
  | .ok b => ([backend_name], .ok b)
  | .error e =>
    ([backend_name],
     .error (.runtimeError
       ("Failed to connect to backend " ++ optStr backend_name ++ ": " ++ e)))

/-- Embedding of `_load_qiskit_backend_fallback` (lines 141-173): CLI backend
name attempt when truthy, then ENV backend name attempt when truthy, else the
`ValueError` at line 173 (also raised when the ENV attempt fails). -/
def _load_qiskit_backend_fallback (getBackend : Nat → Option String → Except String Nat)
    (service : Nat) (backend_name envBackend : Option String) :
    List (Option String) × Except PyError Nat :=
  if truthy backend_name then
    match getBackend service backend_name with
    | .ok b => ([backend_name], .ok b)
    | .error _ =>
      if truthy envBackend then
        match getBackend service envBackend with
        | .ok b => ([backend_name, envBackend], .ok b)
        | .error _ => ([backend_name, envBackend], .error (.valueError noBackendMsg))
      else ([backend_name], .error (.valueError noBackendMsg))
  else
    if truthy envBackend then
      match getBackend service envBackend with
      | .ok b => ([envBackend], .ok b)
      | .error _ => ([envBackend], .error (.valueError noBackendMsg))
    else ([], .error (.valueError noBackendMsg))

/-- Embedding of the `load_qiskit_backend` dispatcher (lines 188-190). -/
def load_qiskit_backend (getBackend : Nat → Option String → Except String Nat)
    (service : Nat) (backend_name envBackend : Option String) (fallback : Bool) :
    List (Option String) × Except PyError Nat :=
  if fallback then _load_qiskit_backend_fallback getBackend service backend_name envBackend
  else _load_qiskit_backend getBackend service backend_name

/-! ### `initialize_qiskit` -/

deriving instance DecidableEq for Except

/-- Observable behaviour of `initialize_qiskit`: the `name=` arguments passed
to `service.backend` in order, and the `(service, backend)` pair returned or
the error raised. -/
structure InitTrace where
  backendRequests : List (Option String)
  outcome : Except PyError (Nat × Nat)
deriving DecidableEq

/-- Embedding of `initialize_qiskit` (lines 194-208): loads the runtime
service from the console instance/token (with the environment as fallback
source), then calls `load_qiskit_backend` with `backend_name=None` (line 202).
`cBackend` is the parsed `--backend` (alias `-b`) console argument. -/
def initialize_qiskit (connect : Connect)
    (getBackend : Nat → Option String → Except String Nat) (fallback : Bool)
    (cInst cTok cBackend : Option String)
    (eInst eTok eBackend : Option String) : InitTrace :=
  match (load_qiskit_runtime connect cInst cTok eInst eTok fallback).2 with
  | .error e => { backendRequests := [], outcome := .error e }
  | .ok s =>
    match (load_qiskit_backend getBackend s none eBackend fallback).2 with
    | .ok b =>
      { backendRequests := (load_qiskit_backend getBackend s none eBackend fallback).1,
        outcome := .ok (s, b) }
    | .error e =>
      { backendRequests := (load_qiskit_backend getBackend s none eBackend fallback).1,
        outcome := .error e }

/-! ### `main.py`: `get_qiskit_runtime_service` -/

/-- A backend value as produced by `get_qiskit_runtime_service`: a local
`AerSimulator` (optionally seeded with a noise model) or a remote backend. -/
inductive BackendR where
  | aer (noise : Option Nat)
  | remote (b : Nat)
deriving DecidableEq

/-- A value returned by `get_qiskit_runtime_service`: either the documented
`(service, backend, noise_model)` triple, or the bare `service` returned by
the trailing block reached by fall-through. -/
inductive GQRSRet where
  | triple (service : Option Nat) (backend : BackendR) (noise : Option Nat)
  | serviceOnly (service : Nat)
deriving DecidableEq

/-- The trailing block of `get_qiskit_runtime_service` (lines 168-176),
reached by falling through from the online branch and from the offline
noise-fetch failure handler: re-checks token/instance, connects again, and
returns the bare service or raises. -/
def gqrsTail (connect : Connect) (token inst : Option String) :
    Except PyError GQRSRet :=
  if truthy token && truthy inst then
    match connect (inst.getD "") (token.getD "") with
    | .ok s => .ok (.serviceOnly s)
    | .error e =>
      .error (.runtimeError ("Failed to connect to Qiskit Runtime Service: " ++ e))
  else
    .error (.valueError
      "Both --token and --instance must be provided to initialize Qiskit Runtime Service.")

/-- Embedding of `get_qiskit_runtime_service` (main.py lines 128-176).
Line 133 references `_environment_parser`, a name not imported in `main.py`,
so a falsy token raises `NameError`. In the offline all-present branch a
failure of any remote step is caught, `backend = AerSimulator()` is assigned
(and then discarded), and control falls through to the trailing block; the
online branch also falls through to the trailing block after resolving the
backend, and its own remote errors propagate uncaught. -/
def get_qiskit_runtime_service (connect : Connect)
    (getBackend : Nat → String → Except String Nat)
    (noiseFrom : Nat → Except String Nat)
    (offline : Bool) (token inst backend : Option String) :
    Except PyError GQRSRet :=
  if !truthy token then .error (.nameError "name _environment_parser is not defined")
  else
    if offline then
      if truthy token && truthy inst && truthy backend then
        match connect (inst.getD "") (token.getD "") with
        | .error _ => gqrsTail connect token inst
        | .ok service =>
          match getBackend service (backend.getD "") with
          | .error _ => gqrsTail connect token inst
          | .ok rb =>
            match noiseFrom rb with
            | .error _ => gqrsTail connect token inst
            | .ok nm => .ok (.triple (some service) (.aer (some nm)) (some nm))
      else if truthy token || truthy inst || truthy backend then
        .ok (.triple none (.aer none) none)
      else
        .ok (.triple none (.aer none) none)
    else
      if !(truthy token && truthy inst && truthy backend) then
        .error (.valueError "Online execution requires --token, --instance, and --backend.")
      else
        match connect (inst.getD "") (token.getD "") with
        | .error e => .error (.uncaught e)
        | .ok service =>
          match getBackend service (backend.getD "") with
          | .error e => .error (.uncaught e)
          | .ok _ => gqrsTail connect token inst

/-! ### Reference definitions and concrete capability stubs -/

/-- Modelled from the spec: the ordered-attempt driver of section 4.2 — try
the candidates strictly in rank order, stop at the first success, collect the
value tuples attempted and the `(label, error)` pair of every failed attempt.
Returns `(attempted value tuples, failures, first success with its label)`. -/
def specOrderedAttempts (connect : Connect) :
    List (String × String × String) →
    List (String × String) × List (String × String) × Option (String × Nat)
  | [] => ([], [], none)
  | (label, i, t) :: rest =>
    match connect i t with
    | .ok s => ([(i, t)], [], some (label, s))
    | .error e =>
      let r := specOrderedAttempts connect rest
      ((i, t) :: r.1, (label, e) :: r.2.1, r.2.2)

/-- The bindings of the Python variables `instance`/`token` after the
`alt_attempts` loop has traversed `alts`: the last attempt's values, or the
initial bindings when the list is empty. -/
def lastBinding (b : Option String × Option String)
    (alts : List (String × String × String)) : Option String × Option String :=
  match alts.getLast? with
  | some c => (some c.2.1, some c.2.2)
  | none => b

/-- The error message a connect capability produces on a candidate (dummy
value when the call succeeds). -/
def errOf (connect : Connect) (c : String × String × String) : String :=
  match connect c.2.1 c.2.2 with
  | .error e => e
  | .ok _ => ""

/-- A connect capability that rejects every credential pair. -/
def failConnect : Connect := fun _ _ => .error "rejected"

/-- A connect capability that accepts every credential pair, handle 7. -/
def connOk7 : Connect := fun _ _ => .ok 7

/-- A backend-resolution capability (main.py shape) returning handle 99. -/
def getBOk99 : Nat → String → Except String Nat := fun _ _ => .ok 99

/-- A backend-resolution capability (initializing_qiskit shape, optional
name) that always fails. -/
def getBIFail : Nat → Option String → Except String Nat := fun _ _ => .error "not found"

/-- A noise-model fetch capability that succeeds with model 5. -/
def noiseOk5 : Nat → Except String Nat := fun _ => .ok 5

/-- A noise-model fetch capability that always fails. -/
def noiseFailStub : Nat → Except String Nat := fun _ => .error "no calibration"

/-! ### Helper lemmas about the fallback resolver -/

theorem lastBinding_cons (b : Option String × Option String)
    (c : String × String × String) (rest : List (String × String × String)) :
    lastBinding (some c.2.1, some c.2.2) rest = lastBinding b (c :: rest) := by
  cases rest with
  | nil => simp [lastBinding]
  | cons d rs =>
    unfold lastBinding
    rw [List.getLast?_cons_cons]
    cases h : (d :: rs).getLast? with
    | some x => rfl
    | none => rw [List.getLast?_eq_none_iff] at h; exact absurd h (by simp)

theorem runAlts_eq (connect : Connect) (alts : List (String × String × String))
    (b : Option String × Option String) (calls fails : List (String × String)) :
    runAlts connect alts b calls fails =
      { connectCalls := calls ++ (specOrderedAttempts connect alts).1,
        failures := fails ++ (specOrderedAttempts connect alts).2.1,
        successLog := ((specOrderedAttempts connect alts).2.2).map Prod.fst,
        returned := ((specOrderedAttempts connect alts).2.2).map Prod.snd,
        raisedMsg :=
          if ((specOrderedAttempts connect alts).2.2).isSome then none else some allFailMsg,
        finalDebugCLI :=
          if ((specOrderedAttempts connect alts).2.2).isSome then none
          else some (lastBinding b alts) } := by
  induction alts generalizing b calls fails with
  | nil => simp [runAlts, specOrderedAttempts, lastBinding]
  | cons c rest ih =>
    obtain ⟨label, i, t⟩ := c
    cases hc : connect i t with
    | ok s => simp [runAlts, specOrderedAttempts, hc]
    | error e =>
      rw [show runAlts connect ((label, i, t) :: rest) b calls fails =
            runAlts connect rest (some i, some t) (calls ++ [(i, t)])
              (fails ++ [(label, e)]) by simp [runAlts, hc]]
      rw [ih]
      have hlb := lastBinding_cons b (label, i, t) rest
      simp only [specOrderedAttempts, hc]
      simp [List.append_assoc, hlb]

theorem fallback_spec_eq (connect : Connect) (inst tok envInst envTok : Option String) :
    _load_qiskit_runtime_fallback connect inst tok envInst envTok =
      { connectCalls :=
          (specOrderedAttempts connect (fallbackCandidates inst tok envInst envTok)).1,
        failures :=
          (specOrderedAttempts connect (fallbackCandidates inst tok envInst envTok)).2.1,
        successLog :=
          ((specOrderedAttempts connect (fallbackCandidates inst tok envInst envTok)).2.2).map
            Prod.fst,
        returned :=
          ((specOrderedAttempts connect (fallbackCandidates inst tok envInst envTok)).2.2).map
            Prod.snd,
        raisedMsg :=
          if ((specOrderedAttempts connect
              (fallbackCandidates inst tok envInst envTok)).2.2).isSome then none
          else some allFailMsg,
        finalDebugCLI :=
          if ((specOrderedAttempts connect
              (fallbackCandidates inst tok envInst envTok)).2.2).isSome then none
          else some (lastBinding (inst, tok) (altAttempts inst tok envInst envTok)) } := by
  unfold _load_qiskit_runtime_fallback fallbackCandidates
  cases h1 : truthy inst && truthy tok with
  | false =>
    simp [runAlts_eq]
  | true =>
    simp only [if_true, List.cons_append, List.nil_append]
    cases hc : connect (inst.getD "") (tok.getD "") with
    | ok s => simp [specOrderedAttempts, hc]
    | error e => simp [runAlts_eq, specOrderedAttempts, hc]

theorem specOrderedAttempts_allFail (connect : Connect)
    (h : ∀ a b, connOk (connect a b) = false) (l : List (String × String × String)) :
    specOrderedAttempts connect l =
      (l.map (fun c => (c.2.1, c.2.2)), l.map (fun c => (c.1, errOf connect c)), none) := by
  induction l with
  | nil => simp [specOrderedAttempts]
  | cons c rest ih =>
    obtain ⟨label, i, t⟩ := c
    cases hc : connect i t with
    | ok s => have := h i t; rw [hc] at this; simp [connOk] at this
    | error e => simp [specOrderedAttempts, hc, ih, errOf]

theorem specOrderedAttempts_length_le (connect : Connect)
    (l : List (String × String × String)) :
    (specOrderedAttempts connect l).1.length ≤ l.length := by
  induction l with
  | nil => simp [specOrderedAttempts]
  | cons c rest ih =>
    obtain ⟨label, i, t⟩ := c
    cases hc : connect i t with
    | ok s => simp [specOrderedAttempts, hc]
    | error e =>
      simp only [specOrderedAttempts, hc, List.length_cons]
      exact Nat.succ_le_succ ih

/-! ### Claim theorems -/

/-- C1: with fallback enabled the candidate list contains exactly those
assignments of sources to {token, instance} in which every parameter is
truthy in the source that combination draws it from; in the concrete scenario
primary={token:"T1"}, secondary={token:"T2", instance:"I2"} the candidates
are exactly "primary token + secondary instance" (label [3]) and
"all-secondary" (label [4]), so at most 2 connect attempts are made. -/
theorem fallback_candidates_exact :
    (∀ i t ei et : Option String,
      (("[1] CLI instance + CLI token", i.getD "", t.getD "") ∈
          fallbackCandidates i t ei et ↔ truthy i = true ∧ truthy t = true) ∧
      (("[2] CLI instance + ENV token", i.getD "", et.getD "") ∈
          fallbackCandidates i t ei et ↔ truthy i = true ∧ truthy et = true) ∧
      (("[3] ENV instance + CLI token", ei.getD "", t.getD "") ∈
          fallbackCandidates i t ei et ↔ truthy ei = true ∧ truthy t = true) ∧
      (("[4] ENV instance + ENV token", ei.getD "", et.getD "") ∈
          fallbackCandidates i t ei et ↔ truthy ei = true ∧ truthy et = true)) ∧
    fallbackCandidates none (some "T1") (some "I2") (some "T2") =
      [("[3] ENV instance + CLI token", "I2", "T1"),
       ("[4] ENV instance + ENV token", "I2", "T2")] ∧
    ∀ connect : Connect,
      (_load_qiskit_runtime_fallback connect none (some "T1") (some "I2")
          (some "T2")).connectCalls.length ≤ 2 := by
  refine ⟨?_, by decide, ?_⟩
  · intro i t ei et
    refine ⟨?_, ?_, ?_, ?_⟩ <;>
      cases hi : truthy i <;> cases ht : truthy t <;> cases hei : truthy ei <;>
        cases het : truthy et <;>
        simp +decide [fallbackCandidates, altAttempts, hi, ht, hei, het]
  · intro connect
    rw [fallback_spec_eq]
    exact (specOrderedAttempts_length_le connect _).trans (by decide)

/-- Witness for C1: in the concrete scenario the
"secondary instance + primary token" combination is a candidate. -/
theorem fallback_candidates_exact_witness :
    ("[3] ENV instance + CLI token", "I2", "T1") ∈
      fallbackCandidates none (some "T1") (some "I2") (some "T2") ∧
    truthy (some "I2") = true ∧ truthy (some "T1") = true :=
  ⟨((fallback_candidates_exact.1 none (some "T1") (some "I2") (some "T2")).2.2.1).mpr
      ⟨by decide, by decide⟩, by decide, by decide⟩

/-- C2: the candidate labels appear in descending rank order [1] to [4]; the
all-primary combination heads the list whenever it is fully populated; and
the resolver's trace coincides with the spec's ordered first-success driver
over the ranked candidate list — the first successful attempt's handle and
label are the outcome, failures before it are logged in order, and no attempt
after the first success is made. -/
theorem fallback_rank_order_first_success (connect : Connect)
    (inst tok envInst envTok : Option String) :
    List.Sublist ((fallbackCandidates inst tok envInst envTok).map Prod.fst)
        ["[1] CLI instance + CLI token", "[2] CLI instance + ENV token",
         "[3] ENV instance + CLI token", "[4] ENV instance + ENV token"] ∧
    (fallbackCandidates inst tok envInst envTok).head? =
      (if truthy inst && truthy tok then
        some ("[1] CLI instance + CLI token", inst.getD "", tok.getD "")
       else (altAttempts inst tok envInst envTok).head?) ∧
    (_load_qiskit_runtime_fallback connect inst tok envInst envTok).connectCalls =
      (specOrderedAttempts connect (fallbackCandidates inst tok envInst envTok)).1 ∧
    (_load_qiskit_runtime_fallback connect inst tok envInst envTok).failures =
      (specOrderedAttempts connect (fallbackCandidates inst tok envInst envTok)).2.1 ∧
    (_load_qiskit_runtime_fallback connect inst tok envInst envTok).successLog =
      ((specOrderedAttempts connect
          (fallbackCandidates inst tok envInst envTok)).2.2).map Prod.fst ∧
    (_load_qiskit_runtime_fallback connect inst tok envInst envTok).returned =
      ((specOrderedAttempts connect
          (fallbackCandidates inst tok envInst envTok)).2.2).map Prod.snd ∧
    (_load_qiskit_runtime_fallback connect inst tok envInst envTok).raisedMsg =
      (if ((specOrderedAttempts connect
          (fallbackCandidates inst tok envInst envTok)).2.2).isSome then none
       else some allFailMsg) := by
  refine ⟨?_, ?_, ?_, ?_, ?_, ?_, ?_⟩
  · cases hi : truthy inst <;> cases ht : truthy tok <;> cases hei : truthy envInst <;>
      cases het : truthy envTok <;>
      simp +decide [fallbackCandidates, altAttempts, hi, ht, hei, het]
  · cases h1 : truthy inst && truthy tok <;> simp [fallbackCandidates, h1]
  all_goals rw [fallback_spec_eq]

/-- C3 counterexample: with identical CLI and ENV credentials and a connect
capability that always fails, four connect calls are made although there is
one single distinct value-tuple — duplicate value-tuples are re-attempted. -/
theorem fallback_no_dedup_counterexample :
    (_load_qiskit_runtime_fallback failConnect (some "A") (some "B") (some "A")
        (some "B")).connectCalls =
      [("A", "B"), ("A", "B"), ("A", "B"), ("A", "B")] ∧
    ((_load_qiskit_runtime_fallback failConnect (some "A") (some "B") (some "A")
        (some "B")).connectCalls).dedup = [("A", "B")] ∧
    ((_load_qiskit_runtime_fallback failConnect (some "A") (some "B") (some "A")
        (some "B")).connectCalls).length ≠
      (((_load_qiskit_runtime_fallback failConnect (some "A") (some "B") (some "A")
        (some "B")).connectCalls).dedup).length := by
  exact ⟨by decide, by decide, by decide⟩

/-- C3 amended: no deduplication is performed; when no attempt succeeds the
connect calls are exactly the fully-populated source combinations in rank
order, counted with multiplicity. -/
theorem fallback_attempts_with_multiplicity (connect : Connect)
    (inst tok envInst envTok : Option String)
    (h : ∀ a b, connOk (connect a b) = false) :
    (_load_qiskit_runtime_fallback connect inst tok envInst envTok).connectCalls =
      (fallbackCandidates inst tok envInst envTok).map (fun c => (c.2.1, c.2.2)) ∧
    (_load_qiskit_runtime_fallback connect inst tok envInst envTok).returned = none := by
  rw [fallback_spec_eq, specOrderedAttempts_allFail connect h]
  exact ⟨rfl, rfl⟩

/-- Witness for the amended C3. -/
theorem fallback_attempts_with_multiplicity_witness :
    (∀ a b, connOk (failConnect a b) = false) ∧
    (_load_qiskit_runtime_fallback failConnect (some "CI") (some "CT") (some "EI")
        (some "ET")).connectCalls =
      (fallbackCandidates (some "CI") (some "CT") (some "EI") (some "ET")).map
        (fun c => (c.2.1, c.2.2)) :=
  ⟨fun _ _ => rfl,
   (fallback_attempts_with_multiplicity failConnect (some "CI") (some "CT")
      (some "EI") (some "ET") (fun _ _ => rfl)).1⟩

/-- C5 counterexample: the raised error is the same fixed-message
`RuntimeError` whether one attempt failed or zero attempts were possible, so
it cannot carry the ordered list of per-attempt failures; in scenario 2
(primary fully populated, secondary empty, connect always failing) the one
attempted label appears only in the failure log, not in the raised error. -/
theorem exhausted_error_counterexample :
    (_load_qiskit_runtime_fallback failConnect (some "I") (some "T") none
        none).failures = [("[1] CLI instance + CLI token", "rejected")] ∧
    (_load_qiskit_runtime_fallback failConnect none none none none).failures = [] ∧
    (_load_qiskit_runtime_fallback failConnect (some "I") (some "T") none
        none).raisedMsg =
      (_load_qiskit_runtime_fallback failConnect none none none none).raisedMsg ∧
    (_load_qiskit_runtime_fallback failConnect (some "I") (some "T") none
        none).raisedMsg = some allFailMsg := by
  exact ⟨by decide, by decide, by decide, by decide⟩

/-- C5 amended: when every permitted attempt fails (or none existed) the
resolver raises a `RuntimeError` with the fixed message `allFailMsg`, and the
ordered list of (label, underlying error) pairs of every attempt made is
recorded in the error log, one record per attempt. -/
theorem exhausted_error_amended (connect : Connect)
    (inst tok envInst envTok : Option String)
    (h : ∀ a b, connOk (connect a b) = false) :
    (_load_qiskit_runtime_fallback connect inst tok envInst envTok).raisedMsg =
      some allFailMsg ∧
    (_load_qiskit_runtime_fallback connect inst tok envInst envTok).returned = none ∧
    (_load_qiskit_runtime_fallback connect inst tok envInst envTok).failures =
      (fallbackCandidates inst tok envInst envTok).map
        (fun c => (c.1, errOf connect c)) := by
  rw [fallback_spec_eq, specOrderedAttempts_allFail connect h]
  exact ⟨rfl, rfl, rfl⟩

/-- Witness for the amended C5: scenario 2 — primary fully populated,
secondary empty, connect always failing — raises the fixed-message error with
exactly one failure logged. -/
theorem exhausted_error_amended_witness :
    (∀ a b, connOk (failConnect a b) = false) ∧
    (_load_qiskit_runtime_fallback failConnect (some "I") (some "T") none
        none).raisedMsg = some allFailMsg ∧
    (_load_qiskit_runtime_fallback failConnect (some "I") (some "T") none
        none).failures.length = 1 := by
  refine ⟨fun _ _ => rfl, ?_, ?_⟩
  · exact (exhausted_error_amended failConnect (some "I") (some "T") none none
      (fun _ _ => rfl)).1
  · rw [(exhausted_error_amended failConnect (some "I") (some "T") none none
      (fun _ _ => rfl)).2.2]
    decide

/-- C10: when at least one alternate attempt was made and every attempt
failed, the final debug log line labelled "CLI instance"/"CLI token" reports
the values of the last alternate attempt (the loop variables rebound by the
`for` loop), not the invocation-supplied values; with no alternate attempt it
reports the invocation-supplied values. -/
theorem fallback_final_log_rebinding (connect : Connect)
    (inst tok envInst envTok : Option String)
    (h : ∀ a b, connOk (connect a b) = false) :
    (_load_qiskit_runtime_fallback connect inst tok envInst envTok).finalDebugCLI =
      some (match (altAttempts inst tok envInst envTok).getLast? with
            | some c => (some c.2.1, some c.2.2)
            | none => (inst, tok)) := by
  rw [fallback_spec_eq, specOrderedAttempts_allFail connect h]
  simp [lastBinding]

/-- Witness for C10: with distinct CLI and ENV values and a connect that
always fails, the final log reports the ENV-derived values of the last
alternate attempt, not the CLI-supplied ones. -/
theorem fallback_final_log_rebinding_witness :
    (∀ a b, connOk (failConnect a b) = false) ∧
    (_load_qiskit_runtime_fallback failConnect (some "CI") (some "CT") (some "EI")
        (some "ET")).finalDebugCLI = some (some "EI", some "ET") ∧
    (some "EI", some "ET") ≠ ((some "CI" : Option String), (some "CT" : Option String)) := by
  refine ⟨fun _ _ => rfl, ?_, by decide⟩
  rw [fallback_final_log_rebinding failConnect (some "CI") (some "CT") (some "EI")
    (some "ET") (fun _ _ => rfl)]
  decide

/-- C4: with fallback disabled, a missing instance or token raises the
missing-required-parameter `ValueError` before any connect call; when both
are present exactly one connect call is made, and its failure is wrapped and
re-raised as a `RuntimeError` with no alternate source attempted. -/
theorem runtime_nofallback_contract (connect : Connect) (inst tok : Option String) :
    ((truthy inst && truthy tok) = false →
      (_load_qiskit_runtime connect inst tok).1 = [] ∧
      (_load_qiskit_runtime connect inst tok).2 = .error (.valueError missingMsg)) ∧
    ((truthy inst && truthy tok) = true →
      (_load_qiskit_runtime connect inst tok).1 = [(inst.getD "", tok.getD "")] ∧
      ∀ e, connect (inst.getD "") (tok.getD "") = .error e →
        (_load_qiskit_runtime connect inst tok).2 =
          .error (.runtimeError ("Failed to load Qiskit runtime service: " ++ e))) := by
  constructor
  · intro h1
    simp [_load_qiskit_runtime, h1]
  · intro h1
    constructor
    · cases hc : connect (inst.getD "") (tok.getD "") <;>
        simp [_load_qiskit_runtime, h1, hc]
    · intro e he
      simp [_load_qiskit_runtime, h1, he]

/-- Witness for C4: with a missing instance no connect call is made and the
`ValueError` is raised; with both present one call is made and the failure is
wrapped into a `RuntimeError`. -/
theorem runtime_nofallback_contract_witness :
    ((truthy (none : Option String) && truthy (some "T")) = false) ∧
    (_load_qiskit_runtime failConnect none (some "T")).1 = [] ∧
    (_load_qiskit_runtime failConnect none (some "T")).2 =
      .error (.valueError missingMsg) ∧
    ((truthy (some "I") && truthy (some "T")) = true) ∧
    (_load_qiskit_runtime failConnect (some "I") (some "T")).1 = [("I", "T")] ∧
    (_load_qiskit_runtime failConnect (some "I") (some "T")).2 =
      .error (.runtimeError "Failed to load Qiskit runtime service: rejected") := by
  have h1 := (runtime_nofallback_contract failConnect none (some "T")).1 (by decide)
  have h2 := (runtime_nofallback_contract failConnect (some "I") (some "T")).2 (by decide)
  refine ⟨by decide, h1.1, h1.2, by decide, by simpa using h2.1, ?_⟩
  have h3 := h2.2 "rejected" rfl
  simpa using h3

/-- C8 counterexample: there is no single prefix length N shared by every
token-mentioning log site — the non-fallback loader's site truncates to 8
characters while the console site truncates to 10, so the same token is
rendered differently at the two sites. -/
theorem token_prefix_inconsistent :
    ¬ ∃ N : Nat, ∀ s : String, truthy (some s) = true →
      runtimeTokenLog s = s.take N ++ "..." ∧
      consoleTokenLog (some s) = s.take N ++ "..." := by
  rintro ⟨N, h⟩
  have h1 := h "ABCDEFGHIJKL" (by decide)
  have h2 : runtimeTokenLog "ABCDEFGHIJKL" = consoleTokenLog (some "ABCDEFGHIJKL") := by
    rw [h1.1, h1.2]
  have h3 : runtimeTokenLog "ABCDEFGHIJKL" = "ABCDEFGH..." := by decide
  have h4 : consoleTokenLog (some "ABCDEFGHIJKL") = "ABCDEFGHIJ..." := by decide
  rw [h3, h4] at h2
  exact absurd h2 (by decide)

/-- C8 amended: every log record renders the token as a fixed-length prefix
plus an ellipsis marker (or None when absent); the console, environment and
both fallback final-log sites agree and reveal at most the first 10
characters, while the non-fallback loader's site reveals at most the first 8
characters — the rendering depends only on that prefix of the token. -/
theorem token_log_sites (t : Option String) :
    envTokenLog t = consoleTokenLog t ∧
    fallbackCliTokenLog t = consoleTokenLog t ∧
    fallbackEnvTokenLog t = consoleTokenLog t ∧
    consoleTokenLog none = "None" ∧
    (∀ s₁ s₂ : String, truthy (some s₁) = true → truthy (some s₂) = true →
      s₁.take 10 = s₂.take 10 →
      consoleTokenLog (some s₁) = consoleTokenLog (some s₂)) ∧
    (∀ s₁ s₂ : String, s₁.take 8 = s₂.take 8 →
      runtimeTokenLog s₁ = runtimeTokenLog s₂) := by
  refine ⟨rfl, rfl, rfl, rfl, ?_, ?_⟩
  · intro s₁ s₂ h1 h2 h3
    simp only [consoleTokenLog, h1, h2, if_true, Option.getD_some]
    rw [h3]
  · intro s₁ s₂ h
    simp only [runtimeTokenLog]
    rw [h]

/-- Witness for the amended C8: two tokens sharing their first 10 characters
are rendered identically at the console site. -/
theorem token_log_sites_witness :
    envTokenLog (some "SECRETTOKEN1") = consoleTokenLog (some "SECRETTOKEN1") ∧
    truthy (some "SECRETTOKEN1AA") = true ∧
    consoleTokenLog (some "SECRETTOKEN1AA") = consoleTokenLog (some "SECRETTOKEN1BB") :=
  ⟨(token_log_sites (some "SECRETTOKEN1")).1, by decide,
   (token_log_sites (some "SECRETTOKEN1AA")).2.2.2.2.1 "SECRETTOKEN1AA"
     "SECRETTOKEN1BB" (by decide) (by decide) (by decide)⟩

/-- C6: evaluation of the online branch at the failing input. With the
instance missing, the missing-required-parameter `ValueError` is raised; but
with token, instance and backend all present and every remote step
succeeding, the resolved backend (handle 99) is discarded: control falls
through to the trailing block, which reconnects and returns the bare service
(handle 7) instead of the resolved backend. -/
theorem online_backend_not_returned :
    get_qiskit_runtime_service connOk7 getBOk99 noiseOk5 false (some "T") none
        (some "B") =
      .error (.valueError "Online execution requires --token, --instance, and --backend.") ∧
    get_qiskit_runtime_service connOk7 getBOk99 noiseOk5 false (some "T") (some "I")
        (some "B") = .ok (.serviceOnly 7) := by
  exact ⟨by decide, by decide⟩

/-- C7: evaluation of the degraded (offline) branch at the failing inputs.
When the noise-profile fetch fails with all three fields present, the
assigned unseeded `AerSimulator` is discarded and control falls through to
the trailing block, which makes another remote connect and returns the bare
service; when that connect fails, degraded mode raises a `RuntimeError`; and
with the token absent, line 133 raises a `NameError` — so degraded mode does
not return the unseeded local backend on fetch failure and can raise. -/
theorem degraded_fetch_failure_fallthrough :
    get_qiskit_runtime_service connOk7 getBOk99 noiseFailStub true (some "T")
        (some "I") (some "B") = .ok (.serviceOnly 7) ∧
    get_qiskit_runtime_service failConnect getBOk99 noiseFailStub true (some "T")
        (some "I") (some "B") =
      .error (.runtimeError "Failed to connect to Qiskit Runtime Service: rejected") ∧
    get_qiskit_runtime_service connOk7 getBOk99 noiseOk5 true none (some "I")
        (some "B") = .error (.nameError "name _environment_parser is not defined") := by
  exact ⟨by decide, by decide, by decide⟩

/-- Helper for C9: when `load_qiskit_backend` is called with
`backend_name=None`, every `name=` argument it passes to `service.backend` is
`None` in non-fallback mode and the environment backend name in fallback
mode. -/
theorem load_backend_requests_of_none
    (getBackend : Nat → Option String → Except String Nat) (s : Nat)
    (eb : Option String) (fb : Bool) :
    ∀ r ∈ (load_qiskit_backend getBackend s none eb fb).1,
      r = if fb then eb else none := by
  intro r hr
  cases fb with
  | false =>
    simp only [load_qiskit_backend, _load_qiskit_backend, Bool.false_eq_true,
      if_false] at hr
    cases h3 : getBackend s none <;> simp [h3] at hr <;> simp [hr]
  | true =>
    simp only [load_qiskit_backend, _load_qiskit_backend_fallback, if_true,
      show truthy none = false from rfl, Bool.false_eq_true, if_false] at hr
    cases het : truthy eb with
    | false => simp [het] at hr
    | true =>
      rw [het] at hr
      simp only [if_true] at hr
      cases h3 : getBackend s eb <;> simp [h3] at hr <;> simp [hr]

/-- C9: `initialize_qiskit` passes `backend_name=None` to the backend loader,
so its behaviour is invariant in the parsed console backend argument, and
every backend lookup it makes uses an absent name in non-fallback mode and
only the environment-derived name in fallback mode. -/
theorem init_ignores_cli_backend (connect : Connect)
    (getBackend : Nat → Option String → Except String Nat) (fb : Bool)
    (ci ct cb ei et eb : Option String) :
    initialize_qiskit connect getBackend fb ci ct cb ei et eb =
      initialize_qiskit connect getBackend fb ci ct none ei et eb ∧
    ∀ r ∈ (initialize_qiskit connect getBackend fb ci ct cb ei et eb).backendRequests,
      r = if fb then eb else none := by
  refine ⟨rfl, ?_⟩
  intro r hr
  unfold initialize_qiskit at hr
  cases h1 : (load_qiskit_runtime connect ci ct ei et fb).2 with
  | error e => rw [h1] at hr; simp at hr
  | ok s =>
    rw [h1] at hr
    cases h2 : (load_qiskit_backend getBackend s none eb fb).2 <;>
      simp only [h2] at hr <;>
      exact load_backend_requests_of_none getBackend s eb fb r hr

/-- Witness for C9: in fallback mode with a failing backend lookup, the one
lookup made uses the environment backend name. -/
theorem init_ignores_cli_backend_witness :
    (some "EB") ∈ (initialize_qiskit connOk7 getBIFail true (some "CI") (some "CT")
        (some "CB") (some "EI") (some "ET") (some "EB")).backendRequests ∧
    (some "EB" : Option String) = (if true then some "EB" else none) :=
  ⟨by decide,
   (init_ignores_cli_backend connOk7 getBIFail true (some "CI") (some "CT")
      (some "CB") (some "EI") (some "ET") (some "EB")).2 (some "EB") (by decide)⟩
